import Mathlib

/-!
# GoHangmanServer: a shallow embedding of `server.go`

The Go program bridges Twitch chat channels to WebSocket clients.  This file
embeds the parts of `server.go` that the specification talks about:

* the key store `keys` (a `map[string]string`) and the HTTP handlers
  `addClient`, `removeClients` and `setup` that read and write it;
* the session read loop `Client.Read`;
* the registry `Pool` with its control loop `Pool.Start` and `Pool.SendMessage`;
* `websocketHandler`.

Conventions of the embedding.

* A Go `string` is a Lean `String`; `len(s)` is the number of bytes of `s`,
  `String.utf8ByteSize`.
* A Go `map[string]V` is a partial function `String → Option V`.
* Global variables (`keys`) and receiver state (`pool.Clients`) are passed in
  and returned explicitly.
* Calls on objects outside the program (the WebSocket connection, the Twitch
  client, `time.Sleep`, channel sends) are recorded, in order, as a list of
  `Effect`s.  What the outside world answers (does a write fail, which frames
  arrive) is part of the connection handle `Conn`.
* A nil pointer dereference is the result `Outcome.crash`.
* Logging (`sugar.Info`, `sugar.Error`) has no effect on any state modelled
  here and is left out.
-/

namespace GoHangmanServer

/-! ## Go maps -/

/-- A Go `map[string]V`: a partial function from keys to values. -/
abbrev GoMap (V : Type) := String → Option V

namespace GoMap

/-- The map `make(map[string]V)`. -/
def empty {V : Type} : GoMap V := fun _ => none

/-- The statement `m[k] = v`. -/
def set {V : Type} (m : GoMap V) (k : String) (v : V) : GoMap V :=
  fun x => if x = k then some v else m x

/-- The statement `delete(m, k)`. -/
def delete {V : Type} (m : GoMap V) (k : String) : GoMap V :=
  fun x => if x = k then none else m x

/-- The test `_, ok := m[k]`. -/
def has {V : Type} (m : GoMap V) (k : String) : Bool := (m k).isSome

end GoMap

/-- The global `var version = "0.0.1"`. -/
def version : String := "0.0.1"

/-- The global `keys`: access key of a client ↦ Twitch channel. -/
abbrev KeyStore := GoMap String

/-- Go's `len` on a string: its length in bytes. -/
def len (s : String) : Nat := s.utf8ByteSize

/-- The struct `Config` (lines 34-43). -/
structure Config where
  Name : String
  Contact : String
  AdminKey : String
  TwitchUsername : String
  TwitchCode : String
  Host : String
  Port : String
  URL : String
  deriving DecidableEq, Repr

/-! ## JSON values and HTTP -/

/-- The JSON objects the program writes, as HTTP bodies or WebSocket frames. -/
inductive Json where
  /-- The struct `errorJson`: an object with `error_code` and `description`. -/
  | errorJson (ErrorCode : Nat) (Description : String)
  /-- The struct `Error`: an object with the one field `error`. -/
  | error (Error : String)
  /-- The anonymous struct with the one field `version`. -/
  | version (Version : String)
  /-- The anonymous struct with the one field `pong`. -/
  | pong (Pong : String)
  /-- The literal body of a successful admin call, an empty object. -/
  | emptyObject
  /-- A Twitch event (`twitch.PrivateMessage`, `twitch.UserNoticeMessage`). -/
  | event (raw : String)
  deriving DecidableEq, Repr

/-- The constant `http.StatusOK`. -/
def StatusOK : Nat := 200
/-- The constant `http.StatusBadRequest`. -/
def StatusBadRequest : Nat := 400
/-- The constant `http.StatusUnauthorized`. -/
def StatusUnauthorized : Nat := 401

/-- What a handler wrote to its `http.ResponseWriter`. -/
structure Response where
  status : Nat
  contentType : String
  body : Json
  deriving DecidableEq, Repr

/-- The values of one query parameter.  `url.ParseQuery` only ever appends to
the slice it stores under a name, so a name that is present has a value at
index 0. -/
structure QueryValues where
  first : String
  rest : List String
  deriving DecidableEq, Repr

/-- The slice as `range` walks it. -/
def QueryValues.toList (v : QueryValues) : List String := v.first :: v.rest

/-- What the handlers read of an `*http.Request`. -/
structure Request where
  /-- The map `r.URL.Query()`. -/
  query : GoMap QueryValues
  /-- The result of `websocket.IsWebSocketUpgrade(r)`. -/
  isWebSocketUpgrade : Bool

/-- The function `serveErrorJson` (lines 239-248): the response it writes. -/
def serveErrorJson (jsonToServe : Json) (statusCode : Nat) : Response :=
  { status := statusCode, contentType := "application/json", body := jsonToServe }

/-- The state a key-store handler leaves behind. -/
structure HandlerResult where
  resp : Response
  /-- The global `keys` when the handler returns. -/
  keys : KeyStore
  /-- Whether `saveKeys` was called (it writes `keys` to `keys.json`). -/
  saved : Bool

/-! ## The admin handlers -/

/-- The `for runLoop` loop of `addClient` (lines 354-361).  `tokens` are the
successive results of `uniuri.NewLen(10)`; the loop stops at the first one
that is not a key of `keys`.  `none`: every token of the list was taken, the
loop has not stopped yet. -/
def freshClientKey (keys : KeyStore) : List String → Option String
  | [] => none
  | clientKey :: tokens =>
    if keys.has clientKey then freshClientKey keys tokens else some clientKey

/-- The handler `addClient` (lines 330-369). -/
def addClient (r : Request) (config : Config) (tokens : List String) (keys : KeyStore) :
    Option HandlerResult :=
  match r.query "admin_key" with
  | none =>
    some { resp := serveErrorJson (.errorJson StatusBadRequest "No admin key was supplied.")
                     StatusUnauthorized,
           keys := keys, saved := false }
  | some adminKey =>
    if len adminKey.first > 1 ∧ adminKey.first = config.AdminKey then
      match r.query "twitch_channel" with
      | none =>
        some { resp := serveErrorJson
                         (.errorJson StatusBadRequest "No twitch channel was supplied.")
                         StatusBadRequest,
               keys := keys, saved := false }
      | some twitchChannel =>
        match freshClientKey keys tokens with
        | none => none
        | some clientKey =>
          some { resp := { status := StatusOK, contentType := "application/json",
                           body := .emptyObject },
                 keys := keys.set clientKey twitchChannel.first, saved := true }
    else
      some { resp := serveErrorJson
                       (.errorJson StatusUnauthorized "Wrong admin key was supplied.")
                       StatusUnauthorized,
             keys := keys, saved := false }

/-- The first loop of `removeClients` (lines 395-404): the first key of the
batch that `keys` does not hold. -/
def firstMissing (keys : KeyStore) : List String → Option String
  | [] => none
  | k :: clientKey => if keys.has k then firstMissing keys clientKey else some k

/-- The second loop of `removeClients` (lines 405-407). -/
def deleteAll (keys : KeyStore) : List String → KeyStore
  | [] => keys
  | k :: clientKey => deleteAll (keys.delete k) clientKey

/-- The handler `removeClients` (lines 371-414). -/
def removeClients (r : Request) (config : Config) (keys : KeyStore) : HandlerResult :=
  match r.query "admin_key" with
  | none =>
    { resp := serveErrorJson (.errorJson StatusBadRequest "No admin key was supplied.")
                StatusBadRequest,
      keys := keys, saved := false }
  | some adminKey =>
    if len adminKey.first > 1 ∧ adminKey.first = config.AdminKey then
      match r.query "clients" with
      | none =>
        { resp := serveErrorJson (.errorJson StatusBadRequest "No client key was supplied.")
                    StatusBadRequest,
          keys := keys, saved := false }
      | some clientKey =>
        if len clientKey.first > 1 then
          match firstMissing keys clientKey.toList with
          | some k =>
            { resp := serveErrorJson
                        (.errorJson StatusBadRequest
                          ("The client key " ++ k ++ " does not exist, deletion aborted."))
                        StatusBadRequest,
              keys := keys, saved := false }
          | none =>
            { resp := { status := StatusOK, contentType := "application/json",
                        body := .emptyObject },
              keys := deleteAll keys clientKey.toList, saved := true }
        else
          { resp := serveErrorJson (.errorJson StatusBadRequest "No client key was supplied.")
                      StatusBadRequest,
            keys := keys, saved := false }
    else
      { resp := serveErrorJson (.errorJson StatusUnauthorized "Wrong admin key was supplied.")
                  StatusUnauthorized,
        keys := keys, saved := false }

/-- The handler `setup` (lines 468-493). -/
def setup (r : Request) (keys : KeyStore) : HandlerResult :=
  match r.query "client_key" with
  | none =>
    { resp := serveErrorJson (.errorJson StatusBadRequest "No client key was supplied")
                StatusBadRequest,
      keys := keys, saved := false }
  | some clientKey =>
    if len clientKey.first > 1 then
      if keys.has clientKey.first then
        { resp := { status := StatusOK, contentType := "application/json",
                    body := .version version },
          keys := keys, saved := false }
      else
        { resp := serveErrorJson (.errorJson StatusUnauthorized "This client key is wrong")
                    StatusUnauthorized,
          keys := keys, saved := false }
    else
      { resp := serveErrorJson (.errorJson StatusBadRequest "No client key was supplied")
                  StatusBadRequest,
        keys := keys, saved := false }

/-! ## Connections, sessions and effects -/

/-- A `*websocket.Conn`.  `id` tells one connection from another; the other
fields say how the outside world answers the calls made on it. -/
structure Conn where
  id : Nat
  /-- The error `WriteJSON` returns on this connection (`none`: the write
  goes through). -/
  writeErr : Option String
  /-- The error `Close` returns; the program only ever logs it. -/
  closeErr : Option String
  /-- The payloads the successive `ReadMessage` calls return. -/
  incoming : List String
  /-- The error of the `ReadMessage` call that follows them. -/
  readErr : String
  deriving DecidableEq, Repr

/-- The struct `Client` (lines 64-68).  Its field `Pool` points to the one
pool of the program and is left out. -/
structure Client where
  ID : String
  Conn : Conn
  deriving DecidableEq, Repr

/-- A call on an object outside the program. -/
inductive Effect where
  /-- The call `conn.WriteJSON(v)`; `ok` says that it returned no error. -/
  | writeJSON (conn : Nat) (v : Json) (ok : Bool)
  /-- The call `conn.Close()`. -/
  | close (conn : Nat)
  /-- The call `time.Sleep(seconds * time.Second)`. -/
  | sleep (seconds : Nat)
  /-- The call `twitchClient.Join(channel)`. -/
  | join (channel : String)
  /-- The call `twitchClient.Depart(channel)`. -/
  | depart (channel : String)
  /-- The call `twitchClient.Reply(channel, replyID, message)`. -/
  | reply (channel : String) (replyID : String) (message : String)
  /-- The send `pool.Register <- client`. -/
  | sendRegister (client : Client)
  /-- The send `pool.Unregister <- client`. -/
  | sendUnregister (client : Client)
  deriving DecidableEq, Repr

/-- The call `c.WriteJSON(v)`: the effect and the error returned. -/
def Conn.WriteJSON (c : Conn) (v : Json) : Effect × Option String :=
  (.writeJSON c.id v c.writeErr.isNone, c.writeErr)

/-- Splits a list at the first `sep`: what stands before it, what stands
after it, and whether `sep` was found. -/
def cutAt (sep : Char) : List Char → List Char × List Char × Bool
  | [] => ([], [], false)
  | c :: cs =>
    if c = sep then ([], cs, true)
    else ((c :: (cutAt sep cs).1), (cutAt sep cs).2.1, (cutAt sep cs).2.2)

/-- The function `strings.Cut(s, sep)` for a separator of one character:
`s[:i], s[i+1:], true` at the first index `i` of `sep`, and `s, "", false`
when `s` does not hold `sep`. -/
def stringsCut (s : String) (sep : Char) : String × String × Bool :=
  (⟨(cutAt sep s.data).1⟩, ⟨(cutAt sep s.data).2.1⟩, (cutAt sep s.data).2.2)

/-- The body of the `for` loop of `Client.Read` once `ReadMessage` returned
the payload `p` (lines 89-99): the effects, and the error the loop returns
with, if it does. -/
def Client.onMessage (c : Client) (p : String) : List Effect × Option String :=
  if p = "ping" then
    match c.Conn.WriteJSON (.pong "pong") with
    | (e, some err) => ([e], some err)
    | (e, none) => ([e], none)
  else
    match stringsCut p ' ' with
    | (replyID, messageToSend, _) => ([.reply c.ID replyID messageToSend], none)

/-- The `for` loop of `Client.Read` (lines 84-100) over the payloads
`ReadMessage` is going to return: the effects, and the error it returns. -/
def Client.readLoop (c : Client) : List String → List Effect × String
  | [] => ([], c.Conn.readErr)
  | p :: ps =>
    match c.onMessage p with
    | (effs, some err) => (effs, err)
    | (effs, none) => (effs ++ (c.readLoop ps).1, (c.readLoop ps).2)

/-- The method `Client.Read` (lines 74-101): the loop, then the deferred
function, which sends the client on `Unregister`, closes the connection and
sets the result to `nil` whatever happened. -/
def Client.Read (c : Client) : List Effect × Option String :=
  ((c.readLoop c.Conn.incoming).1 ++ [.sendUnregister c, .close c.Conn.id], none)

/-! ## The registry -/

/-- The struct `Pool` (lines 103-108): the table `Clients`.  The channels
`Register` and `Unregister` are the list of messages `Pool.Start` is given,
the calls on `TwitchClient` are effects. -/
structure Pool where
  Clients : GoMap Client

/-- A result, or a nil pointer dereference. -/
inductive Outcome (α : Type) where
  | done (a : α)
  | crash
  deriving DecidableEq, Repr

/-- The method `Pool.SendMessage` (lines 130-136).  `pool.Clients[clientID]`
is `nil` when the table has no entry for `clientID`, and `.Conn` on it is a
nil pointer dereference. -/
def Pool.SendMessage (pool : Pool) (clientID : String) (json : Json) :
    Outcome (List Effect × Option String) :=
  match pool.Clients clientID with
  | none => .crash
  | some client => .done ([(client.Conn.WriteJSON json).1], (client.Conn.WriteJSON json).2)

/-- A message on one of the two channels of the pool. -/
inductive PoolMsg where
  | Register (client : Client)
  | Unregister (client : Client)
  deriving DecidableEq, Repr

/-- Where the control loop stands. -/
inductive LoopStatus where
  /-- Blocked in `select`: every message so far was handled. -/
  | waiting
  /-- The method `Pool.Start` has returned; nothing receives any more. -/
  | returned
  /-- The goroutine died of a nil pointer dereference. -/
  | crashed
  deriving DecidableEq, Repr

/-- The state of the registry after `Pool.Start` ran on a list of messages. -/
structure LoopState where
  pool : Pool
  effects : List Effect
  status : LoopStatus
  /-- The messages that were never received. -/
  pending : List PoolMsg

/-- The method `Pool.Start` (lines 110-128) on the messages that arrive on
the two channels, in their order of arrival. -/
def Pool.Start (pool : Pool) : List PoolMsg → LoopState
  | [] => { pool := pool, effects := [], status := .waiting, pending := [] }
  | .Register client :: msgs =>
    match Pool.SendMessage ⟨pool.Clients.set client.ID client⟩ client.ID (.version version) with
    | .crash =>
      { pool := ⟨pool.Clients.set client.ID client⟩, effects := [], status := .crashed,
        pending := msgs }
    | .done (effs, some _) =>
      { pool := ⟨pool.Clients.set client.ID client⟩, effects := effs, status := .returned,
        pending := msgs }
    | .done (effs, none) =>
      { Pool.Start ⟨pool.Clients.set client.ID client⟩ msgs with
        effects := effs ++ (Pool.Start ⟨pool.Clients.set client.ID client⟩ msgs).effects }
  | .Unregister client :: msgs =>
    { Pool.Start ⟨pool.Clients.delete client.ID⟩ msgs with
      effects := .depart client.ID ::
        (Pool.Start ⟨pool.Clients.delete client.ID⟩ msgs).effects }

/-! ## The WebSocket handler -/

/-- What `websocketHandler` did. -/
structure WsResult where
  /-- The HTTP response the handler wrote itself, if it wrote one. -/
  resp : Option Response
  effects : List Effect
  /-- An index out of range. -/
  crashed : Bool
  deriving DecidableEq, Repr

/-- The messages a list of effects puts on the channels of the pool. -/
def poolMsgs : List Effect → List PoolMsg
  | [] => []
  | .sendRegister client :: es => .Register client :: poolMsgs es
  | .sendUnregister client :: es => .Unregister client :: poolMsgs es
  | _ :: es => poolMsgs es

/-- The handler `websocketHandler` (lines 495-548).  `upgrade` is the result
of `upgrader.Upgrade(w, r, nil)`, `toLower` the function `strings.ToLower`. -/
def websocketHandler (r : Request) (keys : KeyStore) (upgrade : Except String Conn)
    (toLower : String → String) : WsResult :=
  let authorized : Bool :=
    match r.query "client_key" with
    | none => false
    | some clientKey => if len clientKey.first > 1 then keys.has clientKey.first else false
  if r.isWebSocketUpgrade = false then
    { resp := some (serveErrorJson
        (.errorJson StatusBadRequest "This URL needs to be used for a websocket connection")
        StatusBadRequest),
      effects := [], crashed := false }
  else
    match upgrade with
    | .error _ => { resp := none, effects := [], crashed := false }
    | .ok c =>
      if authorized = false then
        match c.WriteJSON (.error "The wrong authorization key submitted") with
        | (e, some _) => { resp := none, effects := [e], crashed := false }
        | (e, none) => { resp := none, effects := [e, .sleep 2, .close c.id], crashed := false }
      else
        match r.query "client_key" with
        | none => { resp := none, effects := [], crashed := true }
        | some clientKey =>
          { resp := none,
            effects :=
              [.join (toLower ((keys clientKey.first).getD "")),
               .sendRegister { ID := toLower ((keys clientKey.first).getD ""), Conn := c }] ++
              (Client.Read { ID := toLower ((keys clientKey.first).getD ""), Conn := c }).1,
            crashed := false }

/-! ## Runs of `addClient` -/

/-- One call of a run of `addClient`: the key store the call found, the
channel its request supplied, the key store it left. -/
structure IssueStep where
  before : KeyStore
  channel : String
  after : KeyStore

/-- Consecutive calls of `addClient`, each with its request and with the tokens
the generator yields during it; a call works on the key store the call before
it left.  `none` when one of the calls is not answered with status 200. -/
def addClientRun (config : Config) :
    KeyStore → List (Request × List String) → Option (List IssueStep)
  | _, [] => some []
  | keys, (r, tokens) :: calls =>
    match addClient r config tokens keys, r.query "twitch_channel" with
    | some res, some twitchChannel =>
      if res.resp.status = StatusOK then
        (addClientRun config res.keys calls).map
          (fun steps => { before := keys, channel := twitchChannel.first, after := res.keys }
            :: steps)
      else none
    | _, _ => none

/-- The steps start at `keys` and each one starts where the one before it
ended. -/
def chained : KeyStore → List IssueStep → Prop
  | _, [] => True
  | keys, s :: steps => s.before = keys ∧ chained s.after steps

/-- The step `s` inserted the key `k`: `k` was not a key before, it is mapped
to the channel of the call afterwards, and every entry there was before is
still there with its value. -/
def Issued (k : String) (s : IssueStep) : Prop :=
  s.before k = none ∧ s.after k = some s.channel ∧
  (∀ k' v, s.before k' = some v → s.after k' = some v) ∧
  s.after = s.before.set k s.channel

/-! ## The split of a frame as the specification words it -/

/-- Splits a list at its first whitespace character: what stands before it
and what stands after it; the whole list and nothing when it holds none. -/
def cutAtWhitespace : List Char → List Char × List Char
  | [] => ([], [])
  | c :: cs =>
    if c.isWhitespace then ([], cs)
    else (c :: (cutAtWhitespace cs).1, (cutAtWhitespace cs).2)

/-- The pair `(replyTargetID, message)` the specification reads off a frame:
the frame "split on the first whitespace". -/
def specSplitFrame (f : String) : String × String :=
  (⟨(cutAtWhitespace f.data).1⟩, ⟨(cutAtWhitespace f.data).2⟩)

/-- Whether an effect is a call of `WriteJSON`. -/
def Effect.isWrite : Effect → Bool
  | .writeJSON _ _ _ => true
  | _ => false

/-! ## Example values -/

/-- A configuration whose admin secret is `hunter22`. -/
def exampleConfig : Config :=
  { Name := "hangman", Contact := "me", AdminKey := "hunter22", TwitchUsername := "bot",
    TwitchCode := "code", Host := "localhost", Port := "8080", URL := "http://localhost" }

/-- A key store with the two keys `k1` and `k2`. -/
def twoKeys : KeyStore := (GoMap.empty.set "k1" "alice").set "k2" "bob"

/-- A request with the query `admin_key=hunter22&clients=k1&clients=k2&clients=kMissing`. -/
def revokeRequest : Request :=
  { query := (GoMap.empty.set "admin_key" ⟨"hunter22", []⟩).set "clients"
      ⟨"k1", ["k2", "kMissing"]⟩,
    isWebSocketUpgrade := false }

/-- A request with the query `client_key=` followed by `k`. -/
def clientKeyRequest (k : String) (upgrade : Bool) : Request :=
  { query := GoMap.empty.set "client_key" ⟨k, []⟩, isWebSocketUpgrade := upgrade }

/-- A request with the query `admin_key=hunter22&twitch_channel=` followed by
`channel`. -/
def issueRequest (channel : String) : Request :=
  { query := (GoMap.empty.set "admin_key" ⟨"hunter22", []⟩).set "twitch_channel"
      ⟨channel, []⟩,
    isWebSocketUpgrade := false }

/-- A connection on which every call goes through and no frame arrives. -/
def quietConn (id : Nat) : Conn :=
  { id := id, writeErr := none, closeErr := none, incoming := [], readErr := "EOF" }

/-- A connection on which `WriteJSON` fails. -/
def brokenConn (id : Nat) : Conn :=
  { id := id, writeErr := some "broken pipe", closeErr := none, incoming := [],
    readErr := "EOF" }

/-- A first session of the channel `foo`. -/
def sessionA : Client := { ID := "foo", Conn := quietConn 1 }

/-- A second session of the channel `foo`, on a connection of its own. -/
def sessionB : Client := { ID := "foo", Conn := quietConn 2 }

/-- A session of the channel `bar` whose connection is broken. -/
def sessionBroken : Client := { ID := "bar", Conn := brokenConn 3 }

/-- The pool `NewPool` returns: an empty table. -/
def NewPool : Pool := { Clients := GoMap.empty }

/-- A request for a WebSocket upgrade that supplies no `client_key`. -/
def noKeyUpgradeRequest : Request := { query := GoMap.empty, isWebSocketUpgrade := true }

/-! ## Lemmas on the loops of the admin handlers -/

theorem firstMissing_of_mem (keys : KeyStore) (clientKey : List String) (k : String)
    (hk : k ∈ clientKey) (hmiss : keys k = none) :
    ∃ k', firstMissing keys clientKey = some k' := by
  induction clientKey with
  | nil => simp at hk
  | cons a l ih =>
    unfold firstMissing
    by_cases ha : keys.has a = true
    · simp only [ha, if_true]
      rcases List.mem_cons.mp hk with h | h
      · subst h
        simp [GoMap.has, hmiss] at ha
      · exact ih h
    · exact ⟨a, by simp [ha]⟩

theorem freshClientKey_fresh (keys : KeyStore) (tokens : List String) (k : String)
    (h : freshClientKey keys tokens = some k) : keys k = none ∧ k ∈ tokens := by
  induction tokens with
  | nil => simp [freshClientKey] at h
  | cons a l ih =>
    unfold freshClientKey at h
    by_cases ha : keys.has a = true
    · simp only [ha, if_true] at h
      exact ⟨(ih h).1, List.mem_cons_of_mem _ (ih h).2⟩
    · simp only [ha] at h
      have hak : a = k := by simpa using h
      subst hak
      refine ⟨?_, List.mem_cons_self _ _⟩
      cases hka : keys a with
      | none => rfl
      | some v => simp [GoMap.has, hka] at ha

/-- The loop of `addClient` stops as soon as the generator yields a token that
is not a key yet. -/
theorem freshClientKey_stops (keys : KeyStore) (tokens : List String) (t : String)
    (ht : t ∈ tokens) (hfree : keys t = none) :
    ∃ k, freshClientKey keys tokens = some k := by
  induction tokens with
  | nil => simp at ht
  | cons a l ih =>
    unfold freshClientKey
    by_cases ha : keys.has a = true
    · simp only [ha, if_true]
      rcases List.mem_cons.mp ht with h | h
      · subst h
        simp [GoMap.has, hfree] at ha
      · exact ih h
    · exact ⟨a, by simp [ha]⟩

/-! ## Revoke: no partial deletion -/

/-- C2: when the admin secret is the configured one and some key of the batch
given to `removeClients` is not in the key store, wherever it stands in the
batch, the key store is left as it was, `saveKeys` is not called and the
response is an error of status 400. -/
theorem removeClients_missing_key_keeps_store (r : Request) (config : Config)
    (keys : KeyStore) (adminKey clientKey : QueryValues) (k : String)
    (hadmin : r.query "admin_key" = some adminKey)
    (hvalid : len adminKey.first > 1 ∧ adminKey.first = config.AdminKey)
    (hbatch : r.query "clients" = some clientKey)
    (hk : k ∈ clientKey.toList) (hmiss : keys k = none) :
    (removeClients r config keys).keys = keys ∧
    (removeClients r config keys).saved = false ∧
    (removeClients r config keys).resp.status = StatusBadRequest ∧
    ∃ description,
      (removeClients r config keys).resp.body = .errorJson StatusBadRequest description := by
  obtain ⟨k', hk'⟩ := firstMissing_of_mem keys clientKey.toList k hk hmiss
  unfold removeClients
  rw [hadmin]
  simp only []
  rw [if_pos hvalid, hbatch]
  simp only [hk']
  by_cases hlen : len clientKey.first > 1
  · rw [if_pos hlen]
    exact ⟨rfl, rfl, rfl, _, rfl⟩
  · rw [if_neg hlen]
    exact ⟨rfl, rfl, rfl, _, rfl⟩

/-- C2 at the batch `k1, k2, kMissing` of the specification: `k1` and `k2`
stay in the key store. -/
theorem removeClients_missing_key_keeps_store_witness :
    (removeClients revokeRequest exampleConfig twoKeys).keys = twoKeys ∧
    (removeClients revokeRequest exampleConfig twoKeys).saved = false ∧
    (removeClients revokeRequest exampleConfig twoKeys).resp.status = StatusBadRequest ∧
    ∃ description,
      (removeClients revokeRequest exampleConfig twoKeys).resp.body =
        .errorJson StatusBadRequest description :=
  removeClients_missing_key_keeps_store revokeRequest exampleConfig twoKeys
    ⟨"hunter22", []⟩ ⟨"k1", ["k2", "kMissing"]⟩ "kMissing" (by decide) (by decide) (by decide)
    (by decide) (by decide)

/-! ## Setup -/

/-- C9, as the claim states it, fails: the key `x` is supplied and is not in
the (empty) key store, and `setup` answers 400, not 401. -/
theorem setup_short_key_not_401 :
    (clientKeyRequest "x" false).query "client_key" = some ⟨"x", []⟩ ∧
    (GoMap.empty : KeyStore) "x" = none ∧
    (setup (clientKeyRequest "x" false) GoMap.empty).resp.status = StatusBadRequest ∧
    (setup (clientKeyRequest "x" false) GoMap.empty).resp.status ≠ StatusUnauthorized := by
  decide

/-- C9, amended: for a supplied client key longer than one byte, `setup`
answers 200 with the build version when the key store holds the key and 401
when it does not; the key store is the same afterwards. -/
theorem setup_checks_client_key (r : Request) (keys : KeyStore) (clientKey : QueryValues)
    (hkey : r.query "client_key" = some clientKey) (hlen : len clientKey.first > 1) :
    (setup r keys).keys = keys ∧
    (keys.has clientKey.first = true →
      (setup r keys).resp =
        { status := 200, contentType := "application/json", body := .version version }) ∧
    (keys.has clientKey.first = false →
      (setup r keys).resp.status = 401 ∧
      (setup r keys).resp.body = .errorJson 401 "This client key is wrong") := by
  unfold setup
  simp only [hkey, hlen, if_true]
  by_cases h : keys.has clientKey.first = true
  · simp [h, StatusOK]
  · simp [h, serveErrorJson, StatusUnauthorized]

/-- C9, amended, at the key `k1` of a store that holds it. -/
theorem setup_checks_client_key_witness :
    (setup (clientKeyRequest "k1" false) twoKeys).keys = twoKeys ∧
    (twoKeys.has "k1" = true →
      (setup (clientKeyRequest "k1" false) twoKeys).resp =
        { status := 200, contentType := "application/json", body := .version version }) ∧
    (twoKeys.has "k1" = false →
      (setup (clientKeyRequest "k1" false) twoKeys).resp.status = 401 ∧
      (setup (clientKeyRequest "k1" false) twoKeys).resp.body =
        .errorJson 401 "This client key is wrong") :=
  setup_checks_client_key (clientKeyRequest "k1" false) twoKeys ⟨"k1", []⟩ (by decide)
    (by decide)

/-! ## The admin gate -/

/-- C7: a request to `addClient` without the parameter `admin_key` is answered
with HTTP status 401; the body carries the error code 400.  The key store is
left as it was. -/
theorem addClient_no_admin_key_status (query : GoMap QueryValues) (upgrade : Bool)
    (config : Config) (tokens : List String) (keys : KeyStore) :
    (addClient ⟨query.delete "admin_key", upgrade⟩ config tokens keys).map
        (fun res => (res.resp.status, res.resp.body, res.saved)) =
      some (401, .errorJson 400 "No admin key was supplied.", false) ∧
    (addClient ⟨query.delete "admin_key", upgrade⟩ config tokens keys).map
        (fun res => res.keys) = some keys := by
  simp [addClient, GoMap.delete, serveErrorJson, StatusUnauthorized, StatusBadRequest]

/-- The sibling handler `removeClients` answers a request without `admin_key`
with HTTP status 400, the error code of the body. -/
theorem removeClients_no_admin_key_status (query : GoMap QueryValues) (upgrade : Bool)
    (config : Config) (keys : KeyStore) :
    (removeClients ⟨query.delete "admin_key", upgrade⟩ config keys).resp =
      { status := 400, contentType := "application/json",
        body := .errorJson 400 "No admin key was supplied." } ∧
    (removeClients ⟨query.delete "admin_key", upgrade⟩ config keys).keys = keys := by
  simp [removeClients, GoMap.delete, serveErrorJson, StatusBadRequest]

/-- Both admin handlers answer a supplied admin secret that is not the
configured one with HTTP status 401 and leave the key store as it was. -/
theorem admin_wrong_key_status (r : Request) (config : Config) (tokens : List String)
    (keys : KeyStore) (adminKey : QueryValues) (hadmin : r.query "admin_key" = some adminKey)
    (hwrong : adminKey.first ≠ config.AdminKey) :
    (addClient r config tokens keys).map (fun res => res.resp.status) = some 401 ∧
    (addClient r config tokens keys).map (fun res => res.keys) = some keys ∧
    (removeClients r config keys).resp.status = 401 ∧
    (removeClients r config keys).keys = keys := by
  simp [addClient, removeClients, hadmin, hwrong, serveErrorJson, StatusUnauthorized]

/-! ## Issue: fresh, distinct keys -/

theorem GoMap.set_self {V : Type} (m : GoMap V) (k : String) (v : V) :
    (m.set k v) k = some v := by
  simp [GoMap.set]

theorem GoMap.set_other {V : Type} (m : GoMap V) (k k' : String) (v : V) (h : k' ≠ k) :
    (m.set k v) k' = m k' := by
  simp [GoMap.set, h]

/-- A call of `addClient` that is answered 200 inserted one key that was not
in the key store, mapped to the channel of the request. -/
theorem addClient_ok_inserts (r : Request) (config : Config) (tokens : List String)
    (keys : KeyStore) (res : HandlerResult) (twitchChannel : QueryValues)
    (hres : addClient r config tokens keys = some res)
    (hok : res.resp.status = StatusOK)
    (hch : r.query "twitch_channel" = some twitchChannel) :
    ∃ k, k ∈ tokens ∧ keys k = none ∧ res.keys = keys.set k twitchChannel.first := by
  unfold addClient at hres
  cases hadmin : r.query "admin_key" with
  | none =>
    rw [hadmin] at hres
    simp only [Option.some.injEq] at hres
    subst hres
    simp [serveErrorJson, StatusUnauthorized, StatusOK] at hok
  | some adminKey =>
    rw [hadmin] at hres
    simp only [] at hres
    by_cases hvalid : len adminKey.first > 1 ∧ adminKey.first = config.AdminKey
    · rw [if_pos hvalid, hch] at hres
      simp only [] at hres
      cases hfresh : freshClientKey keys tokens with
      | none => simp [hfresh] at hres
      | some clientKey =>
        rw [hfresh] at hres
        simp only [Option.some.injEq] at hres
        subst hres
        have h := freshClientKey_fresh keys tokens clientKey hfresh
        exact ⟨clientKey, h.2, h.1, rfl⟩
    · rw [if_neg hvalid] at hres
      simp only [Option.some.injEq] at hres
      subst hres
      simp [serveErrorJson, StatusUnauthorized, StatusOK] at hok

/-- C3: in a run of N calls of `addClient` that are all answered 200, whatever
tokens the generator yields, the calls insert N pairwise distinct keys; each
key was not in the key store right before its own call and is mapped to the
channel of that call afterwards, and a call keeps every entry it found. -/
theorem addClient_issues_distinct_fresh_keys (config : Config) (keys : KeyStore)
    (calls : List (Request × List String)) (steps : List IssueStep)
    (hrun : addClientRun config keys calls = some steps) :
    steps.length = calls.length ∧ chained keys steps ∧
    ∃ issued : List String,
      issued.length = calls.length ∧ issued.Nodup ∧ (∀ k ∈ issued, keys k = none) ∧
      List.Forall₂ Issued issued steps := by
  induction calls generalizing keys steps with
  | nil =>
    simp only [addClientRun, Option.some.injEq] at hrun
    subst hrun
    exact ⟨rfl, trivial, [], rfl, List.nodup_nil, by simp, List.Forall₂.nil⟩
  | cons call calls ih =>
    obtain ⟨r, tokens⟩ := call
    unfold addClientRun at hrun
    cases hres : addClient r config tokens keys with
    | none => simp [hres] at hrun
    | some res =>
      cases hch : r.query "twitch_channel" with
      | none => simp [hres, hch] at hrun
      | some twitchChannel =>
        rw [hres, hch] at hrun
        simp only [] at hrun
        by_cases hok : res.resp.status = StatusOK
        · rw [if_pos hok] at hrun
          cases hrest : addClientRun config res.keys calls with
          | none => simp [hrest] at hrun
          | some rest =>
            rw [hrest] at hrun
            simp only [Option.map_some', Option.some.injEq] at hrun
            subst hrun
            obtain ⟨hlen, hchain, issued, hilen, hnodup, hfree, hall⟩ := ih res.keys rest hrest
            obtain ⟨k, _, hk, hset⟩ :=
              addClient_ok_inserts r config tokens keys res twitchChannel hres hok hch
            have hafter : res.keys k = some twitchChannel.first := by
              rw [hset]; exact GoMap.set_self keys k _
            have hnotin : k ∉ issued := by
              intro hmem
              have := hfree k hmem
              rw [hafter] at this
              exact Option.noConfusion this
            refine ⟨by simp [hlen], ⟨rfl, hchain⟩, k :: issued, by simp [hilen],
              List.nodup_cons.mpr ⟨hnotin, hnodup⟩, ?_, List.Forall₂.cons ?_ hall⟩
            · intro k' hk'
              rcases List.mem_cons.mp hk' with h | h
              · rw [h]; exact hk
              · have hne : k' ≠ k := fun e => hnotin (e ▸ h)
                have := hfree k' h
                rw [hset, GoMap.set_other keys k k' _ hne] at this
                exact this
            · refine ⟨hk, hafter, ?_, hset⟩
              intro k' v hv
              have hv' : keys k' = some v := hv
              have hne : k' ≠ k := by
                intro e
                rw [e, hk] at hv'
                exact Option.noConfusion hv'
              show res.keys k' = some v
              rw [hset, GoMap.set_other keys k k' _ hne]
              exact hv'
        · rw [if_neg hok] at hrun
          exact Option.noConfusion hrun

/-- C3 on two calls from the empty key store, where the generator first yields
the key of the first call again during the second call. -/
theorem addClient_issues_distinct_fresh_keys_witness :
    ([ { before := GoMap.empty, channel := "alice",
         after := GoMap.empty.set "aaaaaaaaaa" "alice" },
       { before := GoMap.empty.set "aaaaaaaaaa" "alice", channel := "bob",
         after := (GoMap.empty.set "aaaaaaaaaa" "alice").set "bbbbbbbbbb" "bob" } ] :
      List IssueStep).length =
      [(issueRequest "alice", ["aaaaaaaaaa"]),
       (issueRequest "bob", ["aaaaaaaaaa", "bbbbbbbbbb"])].length ∧
    chained GoMap.empty
      [ { before := GoMap.empty, channel := "alice",
          after := GoMap.empty.set "aaaaaaaaaa" "alice" },
        { before := GoMap.empty.set "aaaaaaaaaa" "alice", channel := "bob",
          after := (GoMap.empty.set "aaaaaaaaaa" "alice").set "bbbbbbbbbb" "bob" } ] ∧
    ∃ issued : List String,
      issued.length =
        [(issueRequest "alice", ["aaaaaaaaaa"]),
         (issueRequest "bob", ["aaaaaaaaaa", "bbbbbbbbbb"])].length ∧
      issued.Nodup ∧ (∀ k ∈ issued, (GoMap.empty : KeyStore) k = none) ∧
      List.Forall₂ Issued issued
        [ { before := GoMap.empty, channel := "alice",
            after := GoMap.empty.set "aaaaaaaaaa" "alice" },
          { before := GoMap.empty.set "aaaaaaaaaa" "alice", channel := "bob",
            after := (GoMap.empty.set "aaaaaaaaaa" "alice").set "bbbbbbbbbb" "bob" } ] :=
  addClient_issues_distinct_fresh_keys exampleConfig GoMap.empty
    [(issueRequest "alice", ["aaaaaaaaaa"]),
     (issueRequest "bob", ["aaaaaaaaaa", "bbbbbbbbbb"])] _ (by rfl)

/-! ## The registry -/

/-- C5: `Pool.SendMessage` for a channel that has no entry in the table
dereferences a nil pointer; it returns no error to its caller. -/
theorem SendMessage_without_session_crashes (pool : Pool) (clientID : String) (json : Json)
    (hnone : pool.Clients clientID = none) :
    pool.SendMessage clientID json = .crash := by
  simp [Pool.SendMessage, hnone]

/-- C5 on the empty table and a chat message for the channel `foo`. -/
theorem SendMessage_without_session_crashes_witness :
    NewPool.SendMessage "foo" (.event "hello") = .crash :=
  SendMessage_without_session_crashes NewPool "foo" (.event "hello") (by rfl)

/-- C10: when the handshake write of a `Register` fails, `Pool.Start` returns;
the table holds the new session, and none of the later messages is received. -/
theorem Start_returns_on_failed_handshake (pool : Pool) (client : Client) (err : String)
    (msgs : List PoolMsg) (hfail : client.Conn.writeErr = some err) :
    (Pool.Start pool (.Register client :: msgs)).status = .returned ∧
    (Pool.Start pool (.Register client :: msgs)).pending = msgs ∧
    (Pool.Start pool (.Register client :: msgs)).pool.Clients =
      pool.Clients.set client.ID client ∧
    (Pool.Start pool (.Register client :: msgs)).effects =
      [.writeJSON client.Conn.id (.version version) false] := by
  simp [Pool.Start, Pool.SendMessage, GoMap.set, Conn.WriteJSON, hfail]

/-- C10 on a broken session followed by the registration of a session of
another channel: the second session is never registered. -/
theorem Start_returns_on_failed_handshake_witness :
    (Pool.Start NewPool [.Register sessionBroken, .Register sessionA]).status = .returned ∧
    (Pool.Start NewPool [.Register sessionBroken, .Register sessionA]).pending =
      [.Register sessionA] ∧
    (Pool.Start NewPool [.Register sessionBroken, .Register sessionA]).pool.Clients =
      NewPool.Clients.set sessionBroken.ID sessionBroken ∧
    (Pool.Start NewPool [.Register sessionBroken, .Register sessionA]).effects =
      [.writeJSON sessionBroken.Conn.id (.version version) false] :=
  Start_returns_on_failed_handshake NewPool sessionBroken "broken pipe" [.Register sessionA]
    (by rfl)

/-- C6, as the claim states it, fails: the entry of `foo` refers to session B,
session A is another session of `foo`, and `Unregister(A)` removes the entry. -/
theorem Unregister_removes_replacing_session :
    (Pool.Start NewPool [.Register sessionA, .Register sessionB]).pool.Clients "foo" =
      some sessionB ∧
    sessionA ≠ sessionB ∧ sessionA.ID = "foo" ∧
    (Pool.Start NewPool [.Register sessionA, .Register sessionB, .Unregister sessionA]
      ).pool.Clients "foo" = none := by
  decide

/-- C6, amended: `Unregister(s)` removes the entry of the channel of `s`
whichever session the entry refers to, leaves the entries of the other
channels as they are, and calls `Depart` for the channel. -/
theorem Unregister_deletes_entry (pool : Pool) (s : Client) :
    (Pool.Start pool [.Unregister s]).pool.Clients s.ID = none ∧
    (∀ channel, channel ≠ s.ID →
      (Pool.Start pool [.Unregister s]).pool.Clients channel = pool.Clients channel) ∧
    (Pool.Start pool [.Unregister s]).effects = [.depart s.ID] ∧
    (Pool.Start pool [.Unregister s]).status = .waiting := by
  refine ⟨by simp [Pool.Start, GoMap.delete], ?_, by simp [Pool.Start], by simp [Pool.Start]⟩
  intro channel hne
  simp [Pool.Start, GoMap.delete, hne]

/-- C1, as the claim states it, fails: after `Register(A)` and `Register(B)`
for the channel `foo` were both handled, the registry has made no call of
`Close` on the connection of A. -/
theorem Register_does_not_close_replaced :
    sessionA.ID = sessionB.ID ∧
    (Pool.Start NewPool [.Register sessionA, .Register sessionB]).pending = [] ∧
    Effect.close sessionA.Conn.id ∉
      (Pool.Start NewPool [.Register sessionA, .Register sessionB]).effects := by
  decide

/-- C1, amended: when the registry has handled `Register(A)` and then
`Register(B)` for one channel, the entry of the channel is B, a
`SendMessage` for the channel makes one call of `WriteJSON`, on the connection
of B, and the registry has called `Close` on no connection: it made the two
handshake writes and nothing else. -/
theorem Register_replaces_session (pool : Pool) (A B : Client) (hch : A.ID = B.ID)
    (hdone : (Pool.Start pool [.Register A, .Register B]).pending = []) :
    (Pool.Start pool [.Register A, .Register B]).pool.Clients A.ID = some B ∧
    (∀ json,
      Pool.SendMessage (Pool.Start pool [.Register A, .Register B]).pool A.ID json =
        .done ([.writeJSON B.Conn.id json B.Conn.writeErr.isNone], B.Conn.writeErr)) ∧
    (Pool.Start pool [.Register A, .Register B]).effects =
      [.writeJSON A.Conn.id (.version version) true,
       .writeJSON B.Conn.id (.version version) B.Conn.writeErr.isNone] ∧
    (∀ conn, Effect.close conn ∉ (Pool.Start pool [.Register A, .Register B]).effects) := by
  have hA : A.Conn.writeErr = none := by
    cases h : A.Conn.writeErr with
    | none => rfl
    | some e =>
      simp [Pool.Start, Pool.SendMessage, GoMap.set, Conn.WriteJSON, h] at hdone
  have heff : (Pool.Start pool [.Register A, .Register B]).effects =
      [.writeJSON A.Conn.id (.version version) true,
       .writeJSON B.Conn.id (.version version) B.Conn.writeErr.isNone] := by
    cases hB : B.Conn.writeErr <;>
      simp [Pool.Start, Pool.SendMessage, GoMap.set, Conn.WriteJSON, hA, hB]
  have htab : (Pool.Start pool [.Register A, .Register B]).pool.Clients A.ID = some B := by
    cases hB : B.Conn.writeErr <;>
      simp [Pool.Start, Pool.SendMessage, GoMap.set, Conn.WriteJSON, hA, hB, hch]
  refine ⟨htab, ?_, heff, ?_⟩
  · intro json
    simp [Pool.SendMessage, htab, Conn.WriteJSON]
  · intro conn
    rw [heff]
    simp

/-- C1, amended, on two sessions of the channel `foo`. -/
theorem Register_replaces_session_witness :
    (Pool.Start NewPool [.Register sessionA, .Register sessionB]).pool.Clients sessionA.ID =
      some sessionB ∧
    (∀ json,
      Pool.SendMessage (Pool.Start NewPool [.Register sessionA, .Register sessionB]).pool
          sessionA.ID json =
        .done ([.writeJSON sessionB.Conn.id json sessionB.Conn.writeErr.isNone],
          sessionB.Conn.writeErr)) ∧
    (Pool.Start NewPool [.Register sessionA, .Register sessionB]).effects =
      [.writeJSON sessionA.Conn.id (.version version) true,
       .writeJSON sessionB.Conn.id (.version version) sessionB.Conn.writeErr.isNone] ∧
    (∀ conn,
      Effect.close conn ∉ (Pool.Start NewPool [.Register sessionA, .Register sessionB]).effects) :=
  Register_replaces_session NewPool sessionA sessionB (by decide) (by decide)

/-! ## The session read loop -/

/-- Either `sep` is not in the list and `cutAt` returns the list and nothing,
or `cutAt` returns the two sides of the first `sep`. -/
theorem cutAt_sides (sep : Char) (l : List Char) :
    (sep ∉ l ∧ (cutAt sep l).1 = l ∧ (cutAt sep l).2.1 = [] ∧ (cutAt sep l).2.2 = false) ∨
    (sep ∉ (cutAt sep l).1 ∧ l = (cutAt sep l).1 ++ sep :: (cutAt sep l).2.1 ∧
      (cutAt sep l).2.2 = true) := by
  induction l with
  | nil => left; simp [cutAt]
  | cons c cs ih =>
    by_cases hc : c = sep
    · right
      simp [cutAt, hc]
    · have hc' : sep ≠ c := fun e => hc e.symm
      rcases ih with ⟨h1, h2, h3, h4⟩ | ⟨h1, h2, h3⟩
      · left
        simp only [cutAt, if_neg hc]
        exact ⟨by simp [hc', h1], by rw [h2], h3, h4⟩
      · right
        simp only [cutAt, if_neg hc]
        refine ⟨by simp [hc', h1], ?_, h3⟩
        rw [List.cons_append, ← h2]

/-- C4, as the claim states it, fails: a tab is the first whitespace character
of the frame `xyz<TAB>hello world`, so that the claim asks for
`Reply(foo, "xyz", "hello world")`; the session cuts at the first space and
forwards `Reply(foo, "xyz<TAB>hello", "world")`. -/
theorem onMessage_cuts_at_space_only :
    specSplitFrame "xyz\thello world" = ("xyz", "hello world") ∧
    sessionA.onMessage "xyz\thello world" =
      ([.reply "foo" "xyz\thello" "world"], none) ∧
    sessionA.onMessage "xyz\thello world" ≠
      ([.reply sessionA.ID (specSplitFrame "xyz\thello world").1
          (specSplitFrame "xyz\thello world").2], none) := by
  decide

/-- C4, amended: for a frame `f` other than `ping`, the session makes one call,
`Reply(c.ID, replyID, message)`, writes no frame and reads on; `replyID` is the
part of `f` before its first space character (U+0020) and `message` the part
after it, and when `f` holds no space `replyID` is `f` and `message` is empty. -/
theorem onMessage_forwards_one_reply (c : Client) (f : String) (ps : List String)
    (hping : f ≠ "ping") :
    ∃ replyID message,
      c.onMessage f = ([.reply c.ID replyID message], none) ∧
      (c.readLoop (f :: ps)).1 = .reply c.ID replyID message :: (c.readLoop ps).1 ∧
      ((' ' ∉ f.data ∧ replyID = f ∧ message = "") ∨
       (' ' ∉ replyID.data ∧ f = replyID ++ " " ++ message)) := by
  have hmsg : c.onMessage f =
      ([.reply c.ID ⟨(cutAt ' ' f.data).1⟩ ⟨(cutAt ' ' f.data).2.1⟩], none) := by
    simp [Client.onMessage, hping, stringsCut]
  refine ⟨⟨(cutAt ' ' f.data).1⟩, ⟨(cutAt ' ' f.data).2.1⟩, hmsg, ?_, ?_⟩
  · simp [Client.readLoop, hmsg]
  · rcases cutAt_sides ' ' f.data with ⟨h1, h2, h3, _⟩ | ⟨h1, h2, _⟩
    · left
      refine ⟨h1, ?_, ?_⟩
      · rw [h2]
      · rw [h3]
    · right
      refine ⟨h1, ?_⟩
      apply String.ext
      simp only [String.data_append]
      simpa using h2

/-- C4, amended, on the frame `xyz hello world` of a session of `foo`. -/
theorem onMessage_forwards_one_reply_witness :
    ∃ replyID message,
      sessionA.onMessage "xyz hello world" = ([.reply sessionA.ID replyID message], none) ∧
      (sessionA.readLoop ("xyz hello world" :: ["ping"])).1 =
        .reply sessionA.ID replyID message :: (sessionA.readLoop ["ping"]).1 ∧
      ((' ' ∉ ("xyz hello world" : String).data ∧ replyID = "xyz hello world" ∧ message = "") ∨
       (' ' ∉ replyID.data ∧ "xyz hello world" = replyID ++ " " ++ message)) :=
  onMessage_forwards_one_reply sessionA "xyz hello world" ["ping"] (by decide)

/-! ## The WebSocket handler -/

/-- C8, as the claim states it, fails: the request supplies no `client_key`,
the upgrade goes through and the write of the error frame fails; the handler
returns without a call of `Close` on the connection. -/
theorem websocketHandler_failed_write_no_close :
    noKeyUpgradeRequest.query "client_key" = none ∧
    (websocketHandler noKeyUpgradeRequest twoKeys (.ok (brokenConn 7)) String.toLower).effects =
      [.writeJSON 7 (.error "The wrong authorization key submitted") false] ∧
    Effect.close (brokenConn 7).id ∉
      (websocketHandler noKeyUpgradeRequest twoKeys (.ok (brokenConn 7)) String.toLower
        ).effects := by
  decide

/-- C8, amended: for an upgrade request that is upgraded and whose
`client_key` is not supplied or is not in the key store, the handler makes one
call of `WriteJSON`, of an error frame on the new connection; when that write
goes through it sleeps 2 seconds and closes the connection; it never calls
`Join` and sends nothing to the pool, whose table therefore stays as it is. -/
theorem websocketHandler_rejects_invalid_key (r : Request) (keys : KeyStore) (c : Conn)
    (toLower : String → String) (hup : r.isWebSocketUpgrade = true)
    (hkey : r.query "client_key" = none ∨
      ∃ clientKey, r.query "client_key" = some clientKey ∧ keys clientKey.first = none) :
    (websocketHandler r keys (.ok c) toLower).resp = none ∧
    (websocketHandler r keys (.ok c) toLower).crashed = false ∧
    (websocketHandler r keys (.ok c) toLower).effects.filter Effect.isWrite =
      [.writeJSON c.id (.error "The wrong authorization key submitted") c.writeErr.isNone] ∧
    (c.writeErr = none →
      (websocketHandler r keys (.ok c) toLower).effects =
        [.writeJSON c.id (.error "The wrong authorization key submitted") true,
         .sleep 2, .close c.id]) ∧
    (∀ channel, Effect.join channel ∉ (websocketHandler r keys (.ok c) toLower).effects) ∧
    poolMsgs (websocketHandler r keys (.ok c) toLower).effects = [] ∧
    (∀ pool : Pool,
      (Pool.Start pool (poolMsgs (websocketHandler r keys (.ok c) toLower).effects)
        ).pool.Clients = pool.Clients) := by
  have hauth :
      (match r.query "client_key" with
        | none => false
        | some clientKey =>
          if len clientKey.first > 1 then keys.has clientKey.first else false) = false := by
    rcases hkey with h | ⟨clientKey, h, hnone⟩
    · rw [h]
    · rw [h]
      simp [GoMap.has, hnone]
  have hres : websocketHandler r keys (.ok c) toLower =
      match c.WriteJSON (.error "The wrong authorization key submitted") with
      | (e, some _) => { resp := none, effects := [e], crashed := false }
      | (e, none) => { resp := none, effects := [e, .sleep 2, .close c.id], crashed := false } := by
    unfold websocketHandler
    simp only [hauth, hup]
    simp
  rw [hres]
  cases hw : c.writeErr with
  | none => simp [Conn.WriteJSON, hw, Effect.isWrite, poolMsgs, Pool.Start]
  | some err => simp [Conn.WriteJSON, hw, Effect.isWrite, poolMsgs, Pool.Start]

/-- C8, amended, on a request without `client_key` and a healthy connection. -/
theorem websocketHandler_rejects_invalid_key_witness :
    (websocketHandler noKeyUpgradeRequest twoKeys (.ok (quietConn 7)) String.toLower).resp =
      none ∧
    (websocketHandler noKeyUpgradeRequest twoKeys (.ok (quietConn 7)) String.toLower).crashed =
      false ∧
    (websocketHandler noKeyUpgradeRequest twoKeys (.ok (quietConn 7)) String.toLower
      ).effects.filter Effect.isWrite =
      [.writeJSON (quietConn 7).id (.error "The wrong authorization key submitted")
        (quietConn 7).writeErr.isNone] ∧
    ((quietConn 7).writeErr = none →
      (websocketHandler noKeyUpgradeRequest twoKeys (.ok (quietConn 7)) String.toLower).effects =
        [.writeJSON (quietConn 7).id (.error "The wrong authorization key submitted") true,
         .sleep 2, .close (quietConn 7).id]) ∧
    (∀ channel,
      Effect.join channel ∉
        (websocketHandler noKeyUpgradeRequest twoKeys (.ok (quietConn 7)) String.toLower
          ).effects) ∧
    poolMsgs
      (websocketHandler noKeyUpgradeRequest twoKeys (.ok (quietConn 7)) String.toLower
        ).effects = [] ∧
    (∀ pool : Pool,
      (Pool.Start pool
        (poolMsgs
          (websocketHandler noKeyUpgradeRequest twoKeys (.ok (quietConn 7)) String.toLower
            ).effects)).pool.Clients = pool.Clients) :=
  websocketHandler_rejects_invalid_key noKeyUpgradeRequest twoKeys (quietConn 7) String.toLower
    (by rfl) (Or.inl (by rfl))

end GoHangmanServer
